import Mathlib

/-!
Verification of the pricing/scoring/selection engine of the
stock-options-analyzer repository.

The engine lives in `src/api/index.js` (authoritative variant) with a
near-duplicate in `src/client/src/App.vue` that differs only in the
goal-scorer thresholds and in lacking the probability refiner.  All
numeric values are modelled as rationals; the JavaScript transcendental
primitives `Math.exp`, `Math.log`, `Math.sqrt` are kept abstract in a
`Primitives` record, and theorems that need facts about them assume only
properties that hold of the corresponding real functions.  Absent or
`undefined` numeric fields of provider records are encoded as `0`, which
the source treats identically (both are falsy in every use site).
-/

namespace OptionsAnalyzer

/-- The transcendental `Math` primitives used by the engine, kept abstract. -/
structure Primitives where
  exp : ℚ → ℚ
  log : ℚ → ℚ
  sqrt : ℚ → ℚ

/-- `normalCDF` from src/api/index.js lines 26-39: Abramowitz-Stegun
rational approximation of the standard normal CDF.  The JS code reassigns
`x = Math.abs(x) / Math.sqrt(2)`; we call the reassigned value `x2`. -/
def normalCDF (P : Primitives) (x : ℚ) : ℚ :=
  let sign : ℚ := if 0 ≤ x then 1 else -1
  let x2 : ℚ := |x| / P.sqrt 2
  let a1 : ℚ := 0.254829592
  let a2 : ℚ := -0.284496736
  let a3 : ℚ := 1.421413741
  let a4 : ℚ := -1.453152027
  let a5 : ℚ := 1.061405429
  let p : ℚ := 0.3275911
  let t : ℚ := 1 / (1 + p * x2)
  let y : ℚ := 1 - (((((a5 * t + a4) * t) + a3) * t + a2) * t + a1) * t * P.exp (-(x2 * x2))
  0.5 * (1 + sign * y)

/-- The `optionType` argument of `calculateDelta` (a string in the source). -/
inductive OptionKind where
  | call
  | put
deriving DecidableEq

/-- `calculateDelta` from src/api/index.js lines 41-57. -/
def calculateDelta (P : Primitives)
    (currentPrice strikePrice timeToExpiry riskFreeRate volatility : ℚ)
    (optionType : OptionKind) : ℚ :=
  if timeToExpiry ≤ 0 then
    -- `currentPrice > strikePrice ? 1 : 0` / `currentPrice < strikePrice ? -1 : 0`
    if optionType = .call then (if strikePrice < currentPrice then 1 else 0)
    else (if currentPrice < strikePrice then -1 else 0)
  else
    let S := currentPrice
    let K := strikePrice
    let T := timeToExpiry
    let r := riskFreeRate
    let sigma := volatility
    let d1 := (P.log (S / K) + (r + 0.5 * sigma * sigma) * T) / (sigma * P.sqrt T)
    if optionType = .call then normalCDF P d1 else normalCDF P d1 - 1

/-- The `{ original, enhanced }` pair returned by
`calculateAssignmentProbability`. -/
structure ProbPair where
  original : ℚ
  enhanced : ℚ
deriving DecidableEq

/-- `calculateAssignmentProbability` from src/api/index.js lines 59-114.
`marketDelta` is `null`/`undefined` exactly when the argument is `none`.
The successive values of the mutable `enhancedProb` variable appear as
`enhancedProb1` … `enhancedProb5`. -/
def calculateAssignmentProbability (P : Primitives)
    (currentPrice strikePrice timeToExpiry riskFreeRate volatility : ℚ)
    (marketDelta : Option ℚ) : ProbPair :=
  if timeToExpiry ≤ 0 then
    { original := if strikePrice ≤ currentPrice then 1 else 0
      enhanced := if strikePrice ≤ currentPrice then 1 else 0 }
  else
    let S := currentPrice
    let K := strikePrice
    let T := timeToExpiry
    let r := riskFreeRate
    let sigma := volatility
    let d1 := (P.log (S / K) + (r + 0.5 * sigma * sigma) * T) / (sigma * P.sqrt T)
    let d2 := d1 - sigma * P.sqrt T
    let originalProb := normalCDF P d2
    -- 1. Delta-based probability adjustment (if market delta is available)
    let enhancedProb1 :=
      match marketDelta with
      | some delta => originalProb * 0.7 + |delta| * 0.3
      | none => originalProb
    -- 2. Implied volatility adjustment (defaultVol = 0.25)
    let volAdjustment := min 2.0 (max 0.5 (sigma / 0.25))
    let enhancedProb2 := enhancedProb1 * volAdjustment
    -- 3. Time decay acceleration for very short-term options
    let enhancedProb3 :=
      if T < 7 / 365 then enhancedProb2 * (1 + 0.1 * (7 / 365 - T) / (7 / 365))
      else enhancedProb2
    -- 4. Moneyness adjustment
    let moneyness := S / K
    let enhancedProb4 :=
      if 1.05 < moneyness then enhancedProb3 * 1.1
      else if 0.95 < moneyness ∧ moneyness ≤ 1.05 then enhancedProb3 * 1.05
      else enhancedProb3
    -- Ensure probability stays between 0 and 1
    let enhancedProb5 := max 0 (min 1 enhancedProb4)
    { original := originalProb, enhanced := enhancedProb5 }

/-- Body of `calculateGoalBasedScore`, parametrised by the two return
targets that the two deployed variants hard-code differently
(src/api/index.js lines 116-153: 0.001/0.002;
src/client/src/App.vue lines 238-275: 0.0025/0.005).
The unused `annualizedReturn` local of the source is omitted;
`if (!meetsTarget) return -1` appears with the branches swapped. -/
def calculateGoalBasedScoreWith (weeklyTarget biweeklyTarget : ℚ)
    (premium assignmentProbability strike currentPrice daysToExpiry : ℚ) : ℚ :=
  let _ := strike  -- passed but unused, exactly as in the source
  let returnPercent := premium / currentPrice
  let meetsTarget : Bool :=
    if daysToExpiry ≤ 8 then decide (weeklyTarget ≤ returnPercent)
    else if daysToExpiry ≤ 16 then decide (biweeklyTarget ≤ returnPercent)
    else false
  if meetsTarget then
    let baseScore := returnPercent / (assignmentProbability / 100 + 0.001)
    let highProbabilityPenalty : ℚ := if 30 < assignmentProbability then 0.5 else 1
    baseScore * highProbabilityPenalty
  else -1

/-- `calculateGoalBasedScore` of src/api/index.js (targets 0.1% / 0.2%). -/
def calculateGoalBasedScore
    (premium assignmentProbability strike currentPrice daysToExpiry : ℚ) : ℚ :=
  calculateGoalBasedScoreWith 0.001 0.002
    premium assignmentProbability strike currentPrice daysToExpiry

/-- `calculateGoalBasedScore` of src/client/src/App.vue (targets 0.25% / 0.5%). -/
def calculateGoalBasedScoreClient
    (premium assignmentProbability strike currentPrice daysToExpiry : ℚ) : ℚ :=
  calculateGoalBasedScoreWith 0.0025 0.005
    premium assignmentProbability strike currentPrice daysToExpiry

/-- A raw option record as delivered by the external chain provider
(`o` in `mapOption`, src/api/index.js lines 262 and 300-311).  Numeric
fields that the provider may omit are encoded as `0` (absent and `0` are
both falsy in every use the source makes of them). -/
structure RawOption where
  contractSymbol : String
  strike : ℚ
  lastPrice : ℚ
  bid : ℚ
  ask : ℚ
  change : ℚ
  percentChange : ℚ
  volume : ℚ
  openInterest : ℚ
  impliedVolatility : ℚ
  inTheMoney : Bool
deriving DecidableEq

/-- The published `goalScore` / ratio fields are strings in the source:
either a `toFixed(3)` rendering of a number or the literal `N/A`.  We keep
the numeric payload and which branch produced it. -/
inductive ScoreField where
  | score (v : ℚ)
  | ratioVal (v : ℚ)
  | na
deriving DecidableEq

/-- Numeric content of JavaScript `x.toFixed(digits)`: the integer
`n` with `n / 10^digits` closest to `x`, ties to the larger `n`. -/
def roundFix (digits : ℕ) (x : ℚ) : ℚ :=
  (⌊x * 10 ^ digits + 1 / 2⌋ : ℚ) / 10 ^ digits

/-- JavaScript `Math.round`: floor of `x + 1/2`. -/
def jsRound (x : ℚ) : ℤ := ⌊x + 1 / 2⌋

/-- `parseFloat` applied to a published score/ratio string, as used by the
descending sort of `qualifyingCalls` (src/api/index.js line 335).
`parseFloat('N/A')` is `NaN`, which the comparator treats as equal to
everything; we map it to `0`, which is only ever applied to qualifying
contracts whose field is a numeric `score` string (see below). -/
def scoreFieldKey : ScoreField → ℚ
  | .score v => v
  | .ratioVal v => v
  | .na => 0

/-- The record built by `mapOption` (src/api/index.js lines 300-324).
String-rendered numeric fields keep their `toFixed` numeric content. -/
structure MappedOption where
  contractSymbol : String
  strike : ℚ
  lastPrice : ℚ
  bid : ℚ
  ask : ℚ
  change : ℚ
  percentChange : ℚ
  volume : ℚ
  openInterest : ℚ
  impliedVolatility : ℚ
  inTheMoney : Bool
  otmPercent : ℚ
  assignmentProbability : ℚ
  assignmentProbabilityEnhanced : ℚ
  delta : ℚ
  premium : ℚ
  returnPercent : ℚ
  goalScore : ScoreField
  returnAssignmentRatioOriginal : ScoreField
  returnAssignmentRatioEnhanced : ScoreField
  meetsTarget : Bool
  targetType : String
  daysToExpiry : ℤ
deriving DecidableEq

/-- `riskFreeRate` constant of `mapOption` (src/api/index.js line 265). -/
def riskFreeRate : ℚ := 0.045

/-- `volatility` local of `mapOption` (line 266):
`o.impliedVolatility || 0.25`. -/
def contractVolatility (o : RawOption) : ℚ :=
  if o.impliedVolatility ≠ 0 then o.impliedVolatility else 0.25

/-- `theoreticalDelta` local of `mapOption` (line 269). -/
def contractDelta (P : Primitives) (currentPrice timeToExpiry : ℚ) (o : RawOption) : ℚ :=
  calculateDelta P currentPrice o.strike timeToExpiry riskFreeRate
    (contractVolatility o) .call

/-- `assignmentProbs` local of `mapOption` (lines 272-279); the calculated
delta is passed as the market delta approximation. -/
def contractProbs (P : Primitives) (currentPrice timeToExpiry : ℚ) (o : RawOption) : ProbPair :=
  calculateAssignmentProbability P currentPrice o.strike timeToExpiry riskFreeRate
    (contractVolatility o) (some (contractDelta P currentPrice timeToExpiry o))

/-- `premium` local of `mapOption` (line 281):
`(o.bid && o.ask) ? (o.bid + o.ask) / 2 : (o.lastPrice || 0)`. -/
def contractPremium (o : RawOption) : ℚ :=
  if o.bid ≠ 0 ∧ o.ask ≠ 0 then (o.bid + o.ask) / 2 else o.lastPrice

/-- `goalScore` local of `mapOption` (line 285): the goal score of the
contract, fed the enhanced probability on a 0-100 scale. -/
def contractGoalScore (P : Primitives)
    (currentPrice timeToExpiry daysToExpiry : ℚ) (o : RawOption) : ℚ :=
  calculateGoalBasedScore (contractPremium o)
    ((contractProbs P currentPrice timeToExpiry o).enhanced * 100)
    o.strike currentPrice daysToExpiry

/-- `mapOption` from src/api/index.js lines 262-325.  `timeToExpiry`
(years) and `daysToExpiry` (days) are derived in the source from
`target.getTime() - Date.now()`; the clock being external, they are taken
here as inputs. -/
def mapOption (P : Primitives)
    (currentPrice timeToExpiry daysToExpiry : ℚ) (o : RawOption) : MappedOption :=
  let theoreticalDelta := contractDelta P currentPrice timeToExpiry o
  let assignmentProbs := contractProbs P currentPrice timeToExpiry o
  let premium := contractPremium o
  let returnPercent := if 0 < premium then roundFix 3 (premium / currentPrice * 100) else 0
  let goalScore := contractGoalScore P currentPrice timeToExpiry daysToExpiry o
  let originalRatioVal : ScoreField :=
    if 0 < premium ∧ 0 < assignmentProbs.original then
      .ratioVal (roundFix 3 ((premium / currentPrice * 100) / (assignmentProbs.original * 100)))
    else .na
  let enhancedRatioVal : ScoreField :=
    if 0 < premium ∧ 0 < assignmentProbs.enhanced then
      .ratioVal (roundFix 3 ((premium / currentPrice * 100) / (assignmentProbs.enhanced * 100)))
    else .na
  let weeklyReturn := if 0 < premium then premium / currentPrice * 100 else 0
  let meetsWeeklyTarget : Bool := decide (daysToExpiry ≤ 8 ∧ 0.1 ≤ weeklyReturn)
  let meetsBiweeklyTarget : Bool := decide (daysToExpiry ≤ 16 ∧ 0.2 ≤ weeklyReturn)
  { contractSymbol := o.contractSymbol
    strike := o.strike
    lastPrice := o.lastPrice
    bid := o.bid
    ask := o.ask
    change := o.change
    percentChange := o.percentChange
    volume := o.volume
    openInterest := o.openInterest
    impliedVolatility := o.impliedVolatility
    inTheMoney := o.inTheMoney
    otmPercent := roundFix 2 ((o.strike - currentPrice) / currentPrice * 100)
    assignmentProbability := roundFix 1 (assignmentProbs.original * 100)
    assignmentProbabilityEnhanced := roundFix 1 (assignmentProbs.enhanced * 100)
    delta := roundFix 1 (theoreticalDelta * 100)
    premium := roundFix 2 premium
    returnPercent := returnPercent
    goalScore := if 0 < goalScore then .score (roundFix 3 goalScore) else enhancedRatioVal
    returnAssignmentRatioOriginal := originalRatioVal
    returnAssignmentRatioEnhanced := enhancedRatioVal
    meetsTarget := meetsWeeklyTarget || meetsBiweeklyTarget
    targetType :=
      if meetsWeeklyTarget then "weekly"
      else if meetsBiweeklyTarget then "bi-weekly" else "none"
    daysToExpiry := jsRound daysToExpiry }

/-- One element of the `results` array (src/api/index.js lines 348-354).
The `bestOptionReason` display string is not modelled. -/
structure ExpirationResult where
  expiration : ℤ
  calls : List MappedOption
  bestOption : Option MappedOption
  hasQualifyingOptions : Bool
deriving DecidableEq

/-- Body of the per-expiration loop (src/api/index.js lines 327-354):
OTM band filter, mapping, qualifying ranking, strike sort, best pick.
`otmLow`/`otmHigh` are computed from `currentPrice` exactly as at lines
249-250.  Both `sort` calls are stable in JavaScript (ES2019), as is
`List.mergeSort`. -/
def processExpiration (P : Primitives) (currentPrice : ℚ) (expiration : ℤ)
    (timeToExpiry daysToExpiry : ℚ) (calls : List RawOption) : ExpirationResult :=
  let otmLow := currentPrice * 1.001
  let otmHigh := currentPrice * 1.10
  let allCalls :=
    (calls.filter fun c => decide (otmLow ≤ c.strike) && decide (c.strike ≤ otmHigh)).map
      (mapOption P currentPrice timeToExpiry daysToExpiry)
  let qualifyingCalls :=
    (allCalls.filter fun c => c.meetsTarget).mergeSort
      fun a b => decide (scoreFieldKey b.goalScore ≤ scoreFieldKey a.goalScore)
  let finalCalls := allCalls.mergeSort fun a b => decide (a.strike ≤ b.strike)
  let bestOption := qualifyingCalls.head?
  { expiration := expiration
    calls := finalCalls
    bestOption := bestOption
    hasQualifyingOptions := decide (0 < qualifyingCalls.length) }

/-- One target expiration of the `/api/options-weeks` request: its
timestamp, the derived year/day counts, and the chain the provider
returned for it — `none` when `chain?.options?.[0]` is missing, and
`some calls` (with `opt.calls || []` as the list) otherwise. -/
structure TargetData where
  expiration : ℤ
  timeToExpiry : ℚ
  daysToExpiry : ℚ
  chain : Option (List RawOption)
deriving DecidableEq

/-- The `for (const target of targets)` loop of the request handler
(src/api/index.js lines 252-355): a target whose chain has no options
entry is skipped (`if (!opt) continue`), every other target contributes
one `ExpirationResult`. -/
def runAnalysis (P : Primitives) (currentPrice : ℚ)
    (targets : List TargetData) : List ExpirationResult :=
  targets.filterMap fun t =>
    t.chain.map fun calls =>
      processExpiration P currentPrice t.expiration t.timeToExpiry t.daysToExpiry calls

/-- Concrete primitives used by witnesses: any functions with
`0 ≤ exp y ≤ 1` on nonpositive inputs and `sqrt 2 > 0` fit the
hypotheses the theorems place on `Primitives`. -/
def testPrims : Primitives :=
  { exp := fun _ => 1 / 2, log := fun x => x, sqrt := fun _ => 1 }

/-- The goal-score body after the gate passes, with probability `p`:
antitone in `p` on `[0, ∞)` for a nonnegative return. -/
theorem goalScoreBody_antitone {R p1 p2 : ℚ} (hR : 0 ≤ R) (hp1 : 0 ≤ p1) (h12 : p1 ≤ p2) :
    R / (p2 / 100 + 0.001) * (if 30 < p2 then (0.5 : ℚ) else 1) ≤
      R / (p1 / 100 + 0.001) * (if 30 < p1 then (0.5 : ℚ) else 1) := by
  have hq1 : (0 : ℚ) ≤ p1 / 100 := by positivity
  have hd1 : (0 : ℚ) < p1 / 100 + 0.001 := by norm_num; linarith
  have hq12 : p1 / 100 ≤ p2 / 100 := by linarith
  have hd2 : (0 : ℚ) < p2 / 100 + 0.001 := by norm_num; linarith
  have hdle : p1 / 100 + 0.001 ≤ p2 / 100 + 0.001 := by linarith
  have hRd : R * (p1 / 100 + 0.001) ≤ R * (p2 / 100 + 0.001) :=
    mul_le_mul_of_nonneg_left hdle hR
  have hRd2 : 0 ≤ R * (p2 / 100 + 0.001) := mul_nonneg hR hd2.le
  split_ifs with h2 h1 h1
  · rw [div_mul_eq_mul_div, div_mul_eq_mul_div, div_le_div_iff hd2 hd1]
    nlinarith [hRd]
  · rw [div_mul_eq_mul_div, div_mul_eq_mul_div, div_le_div_iff hd2 hd1]
    nlinarith [hRd, hRd2]
  · exact absurd (lt_of_lt_of_le h1 h12) h2
  · rw [div_mul_eq_mul_div, div_mul_eq_mul_div, div_le_div_iff hd2 hd1]
    nlinarith [hRd]

/-- The Abramowitz-Stegun polynomial `(((((a5·t + a4)·t + a3)·t + a2)·t + a1)·t`
is within `[0, 2]` on `t ∈ [0, 1]`, which is all the `normalCDF` bound needs. -/
theorem AS_poly_bounds {t : ℚ} (h0 : 0 ≤ t) (h1 : t ≤ 1) :
    0 ≤ ((((1.061405429 * t + -1.453152027) * t + 1.421413741) * t + -0.284496736) * t
        + 0.254829592) * t ∧
    ((((1.061405429 * t + -1.453152027) * t + 1.421413741) * t + -0.284496736) * t
        + 0.254829592) * t ≤ 2 := by
  constructor
  · have hq : (0 : ℚ) ≤ 1.061405429 * t ^ 4 - 1.453152027 * t ^ 3 + 1.421413741 * t ^ 2
        - 0.284496736 * t + 0.254829592 := by
      nlinarith [sq_nonneg (t * t - 0.6845 * t), sq_nonneg (t - 0.1539),
        mul_nonneg (mul_nonneg h0 h0) (sub_nonneg.mpr h1), h0, h1]
    nlinarith [mul_nonneg h0 hq]
  · nlinarith [mul_nonneg (mul_nonneg (mul_nonneg (mul_nonneg h0 h0) h0) h0)
      (sub_nonneg.mpr h1),
      mul_nonneg (sub_nonneg.mpr h1) (by positivity : (0 : ℚ) ≤ 1 + t + t * t),
      sq_nonneg t, h0, h1]

/-- The Abramowitz-Stegun `normalCDF` approximation stays in `[0, 1]` for every
input, given only that `exp` maps nonpositive arguments into `[0, 1]` and that
`sqrt 2` is positive — both true of the real functions. -/
theorem normalCDF_bounds (P : Primitives)
    (hexp : ∀ y : ℚ, y ≤ 0 → 0 ≤ P.exp y ∧ P.exp y ≤ 1)
    (hsqrt : 0 < P.sqrt 2) (x : ℚ) :
    0 ≤ normalCDF P x ∧ normalCDF P x ≤ 1 := by
  have hx2 : 0 ≤ |x| / P.sqrt 2 := div_nonneg (abs_nonneg x) hsqrt.le
  simp only [normalCDF]
  set x2 : ℚ := |x| / P.sqrt 2 with hx2def
  set t : ℚ := 1 / (1 + 0.3275911 * x2) with htdef
  have hden : (1 : ℚ) ≤ 1 + 0.3275911 * x2 := by nlinarith
  have ht0 : 0 ≤ t := by rw [htdef]; positivity
  have ht1 : t ≤ 1 := by rw [htdef, div_le_one (by linarith)]; linarith
  obtain ⟨he0, he1⟩ := hexp (-(x2 * x2)) (by nlinarith [mul_self_nonneg x2])
  obtain ⟨hp0, hp2⟩ := AS_poly_bounds ht0 ht1
  set E : ℚ := P.exp (-(x2 * x2)) with hEdef
  set PT : ℚ := ((((1.061405429 * t + -1.453152027) * t + 1.421413741) * t
    + -0.284496736) * t + 0.254829592) * t with hPTdef
  have hPE0 : 0 ≤ PT * E := mul_nonneg hp0 he0
  have hPE2 : PT * E ≤ 2 := le_trans (mul_le_of_le_one_right hp0 he1) hp2
  constructor
  · split_ifs with hx <;> linarith
  · split_ifs with hx <;> linarith

/-- C2: for positive spot, strike and volatility and any time to expiry, both
components of `calculateAssignmentProbability` lie in `[0, 1]`; the `original`
component is bounded without any explicit clamp because `normalCDF` maps every
input into `[0, 1]`. -/
theorem claim2_probabilities_in_unit_interval (P : Primitives) (S K T r σ : ℚ)
    (md : Option ℚ) (hS : 0 < S) (hK : 0 < K) (hσ : 0 < σ)
    (hexp : ∀ y : ℚ, y ≤ 0 → 0 ≤ P.exp y ∧ P.exp y ≤ 1) (hsqrt : 0 < P.sqrt 2) :
    0 ≤ (calculateAssignmentProbability P S K T r σ md).original ∧
    (calculateAssignmentProbability P S K T r σ md).original ≤ 1 ∧
    0 ≤ (calculateAssignmentProbability P S K T r σ md).enhanced ∧
    (calculateAssignmentProbability P S K T r σ md).enhanced ≤ 1 := by
  by_cases hT : T ≤ 0
  · simp only [calculateAssignmentProbability, if_pos hT]
    split_ifs <;> norm_num
  · simp only [calculateAssignmentProbability, if_neg hT]
    exact ⟨(normalCDF_bounds P hexp hsqrt _).1, (normalCDF_bounds P hexp hsqrt _).2,
      le_max_left 0 _, max_le (by norm_num) (min_le_left 1 _)⟩

/-- Witness for C2 at spot 100, strike 105, one week to expiry, volatility
0.25, market delta 0.5, with concrete primitives satisfying the assumptions. -/
theorem claim2_witness :
    0 ≤ (calculateAssignmentProbability testPrims 100 105 (7 / 365) 0.045 0.25
      (some 0.5)).original ∧
    (calculateAssignmentProbability testPrims 100 105 (7 / 365) 0.045 0.25
      (some 0.5)).original ≤ 1 ∧
    0 ≤ (calculateAssignmentProbability testPrims 100 105 (7 / 365) 0.045 0.25
      (some 0.5)).enhanced ∧
    (calculateAssignmentProbability testPrims 100 105 (7 / 365) 0.045 0.25
      (some 0.5)).enhanced ≤ 1 :=
  claim2_probabilities_in_unit_interval testPrims 100 105 (7 / 365) 0.045 0.25
    (some 0.5) (by norm_num) (by norm_num) (by norm_num)
    (fun y hy => ⟨by norm_num [testPrims], by norm_num [testPrims]⟩) (by norm_num [testPrims])

/-- C1: for positive spot, strike and volatility, `calculateAssignmentProbability`
returns the in-the-money indicator when `timeToExpiry ≤ 0`, and otherwise its
`original` component is `normalCDF` evaluated at
`d2 = d1 - σ·√T` with `d1 = (ln(spot/strike) + (r + 0.5·σ²)·T) / (σ·√T)`. -/
theorem claim1_assignment_probability_formula (P : Primitives) (S K T r σ : ℚ)
    (md : Option ℚ) (hS : 0 < S) (hK : 0 < K) (hσ : 0 < σ) :
    (T ≤ 0 → calculateAssignmentProbability P S K T r σ md =
      { original := if K ≤ S then 1 else 0, enhanced := if K ≤ S then 1 else 0 }) ∧
    (0 < T → (calculateAssignmentProbability P S K T r σ md).original =
      normalCDF P ((P.log (S / K) + (r + 0.5 * σ ^ 2) * T) / (σ * P.sqrt T)
        - σ * P.sqrt T)) := by
  constructor
  · intro hT
    simp [calculateAssignmentProbability, hT]
  · intro hT
    simp only [calculateAssignmentProbability, if_neg (not_le.mpr hT)]
    congr 2
    ring

/-- Witness for C1 at spot 100, strike 95 (expired branch) and
spot 100, strike 105 with one year to expiry (live branch). -/
theorem claim1_witness :
    (calculateAssignmentProbability testPrims 100 95 0 0.045 0.25 none =
      { original := if (95 : ℚ) ≤ 100 then 1 else 0
        enhanced := if (95 : ℚ) ≤ 100 then 1 else 0 }) ∧
    (calculateAssignmentProbability testPrims 100 105 1 0.045 0.25 none).original =
      normalCDF testPrims
        ((testPrims.log (100 / 105) + (0.045 + 0.5 * 0.25 ^ 2) * 1) /
          (0.25 * testPrims.sqrt 1) - 0.25 * testPrims.sqrt 1) := by
  constructor
  · exact (claim1_assignment_probability_formula testPrims 100 95 0 0.045 0.25 none
      (by norm_num) (by norm_num) (by norm_num)).1 (by norm_num)
  · exact (claim1_assignment_probability_formula testPrims 100 105 1 0.045 0.25 none
      (by norm_num) (by norm_num) (by norm_num)).2 (by norm_num)

/-- C3: with a market delta present and positive time to expiry, the enhanced
probability is the clamp to `[0,1]` of the original probability passed through,
in order: the 70/30 delta blend, the volatility scaling clamped to `[0.5, 2]`,
the short-dated boost for `T < 7/365`, and the moneyness boost. -/
theorem claim3_refiner_pipeline (P : Primitives) (S K T r σ d : ℚ) (hT : 0 < T) :
    (calculateAssignmentProbability P S K T r σ (some d)).enhanced =
      max 0 (min 1 (
        let step1 := 0.7 * (calculateAssignmentProbability P S K T r σ (some d)).original
          + 0.3 * |d|
        let step2 := step1 * min 2.0 (max 0.5 (σ / 0.25))
        let step3 := if T < 7 / 365 then step2 * (1 + 0.1 * (7 / 365 - T) / (7 / 365))
          else step2
        if 1.05 < S / K then step3 * 1.1
        else if 0.95 < S / K ∧ S / K ≤ 1.05 then step3 * 1.05
        else step3)) := by
  simp only [calculateAssignmentProbability, if_neg (not_le.mpr hT)]
  split_ifs <;> (congr 1; congr 1; ring)

/-- Witness for C3 at spot 100, strike 102, one week to expiry,
volatility 0.3, market delta 0.4. -/
theorem claim3_witness :
    (calculateAssignmentProbability testPrims 100 102 (7 / 365) 0.045 0.3 (some 0.4)).enhanced =
      max 0 (min 1 (
        let step1 := 0.7 *
          (calculateAssignmentProbability testPrims 100 102 (7 / 365) 0.045 0.3
            (some 0.4)).original + 0.3 * |(0.4 : ℚ)|
        let step2 := step1 * min 2.0 (max 0.5 ((0.3 : ℚ) / 0.25))
        let step3 := if (7 / 365 : ℚ) < 7 / 365 then
            step2 * (1 + 0.1 * (7 / 365 - 7 / 365) / (7 / 365))
          else step2
        if (1.05 : ℚ) < 100 / 102 then step3 * 1.1
        else if (0.95 : ℚ) < 100 / 102 ∧ (100 / 102 : ℚ) ≤ 1.05 then step3 * 1.05
        else step3)) :=
  claim3_refiner_pipeline testPrims 100 102 (7 / 365) 0.045 0.3 0.4 (by norm_num)

/-- C6: for either variant's threshold pair, a return below the applicable
tenor gate — weekly for `D ≤ 8`, bi-weekly for `8 < D ≤ 16` — or a tenor in
neither bucket yields the sentinel `-1`, never a positive score. -/
theorem claim6_gate_disqualifies (wT bT prem p K S D : ℚ) (hS : 0 < S)
    (h : (D ≤ 8 ∧ prem / S < wT) ∨ (8 < D ∧ D ≤ 16 ∧ prem / S < bT) ∨ 16 < D) :
    calculateGoalBasedScoreWith wT bT prem p K S D = -1 ∧
    calculateGoalBasedScoreWith wT bT prem p K S D < 0 := by
  have heq : calculateGoalBasedScoreWith wT bT prem p K S D = -1 := by
    rcases h with ⟨hD, hlt⟩ | ⟨hD8, hD16, hlt⟩ | hD16
    · simp [calculateGoalBasedScoreWith, hD, not_le.mpr hlt]
    · simp [calculateGoalBasedScoreWith, not_le.mpr hD8, hD16, not_le.mpr hlt]
    · have h8 : ¬ D ≤ 8 := by linarith
      have h16 : ¬ D ≤ 16 := by linarith
      simp [calculateGoalBasedScoreWith, h8, h16]
  exact ⟨heq, by rw [heq]; norm_num⟩

/-- Witness for C6: premium 0.05 on a 100 spot, five days out, against the
API variant thresholds — a 0.05% return misses the 0.1% weekly gate. -/
theorem claim6_witness :
    calculateGoalBasedScoreWith 0.001 0.002 (1 / 20) 10 105 100 5 = -1 ∧
    calculateGoalBasedScoreWith 0.001 0.002 (1 / 20) 10 105 100 5 < 0 :=
  claim6_gate_disqualifies 0.001 0.002 (1 / 20) 10 105 100 5 (by norm_num)
    (Or.inl ⟨by norm_num, by norm_num⟩)

/-- C7: for fixed premium, spot and day count, the goal score is monotonically
non-increasing in the assignment probability over `[0, 100]`, including across
the 0.5-penalty step at probability 30. -/
theorem claim7_score_antitone_in_probability (wT bT prem K S D p1 p2 : ℚ)
    (hS : 0 < S) (hwT : 0 ≤ wT) (hbT : 0 ≤ bT)
    (hp1 : 0 ≤ p1) (h12 : p1 ≤ p2) (hp2 : p2 ≤ 100) :
    calculateGoalBasedScoreWith wT bT prem p2 K S D ≤
      calculateGoalBasedScoreWith wT bT prem p1 K S D := by
  by_cases hD8 : D ≤ 8
  · by_cases hw : wT ≤ prem / S
    · have hR : 0 ≤ prem / S := le_trans hwT hw
      simp only [calculateGoalBasedScoreWith, hD8, if_true, decide_eq_true hw]
      simpa using goalScoreBody_antitone hR hp1 h12
    · simp [calculateGoalBasedScoreWith, hD8, hw]
  · by_cases hD16 : D ≤ 16
    · by_cases hb : bT ≤ prem / S
      · have hR : 0 ≤ prem / S := le_trans hbT hb
        simp only [calculateGoalBasedScoreWith, hD8, hD16, if_true, if_false,
          decide_eq_true hb]
        simpa using goalScoreBody_antitone hR hp1 h12
      · simp [calculateGoalBasedScoreWith, hD8, hD16, hb]
    · simp [calculateGoalBasedScoreWith, hD8, hD16]

/-- Witness for C7: probabilities 10 and 50 on a qualifying weekly contract. -/
theorem claim7_witness :
    calculateGoalBasedScoreWith 0.001 0.002 1 50 105 100 5 ≤
      calculateGoalBasedScoreWith 0.001 0.002 1 10 105 100 5 :=
  claim7_score_antitone_in_probability 0.001 0.002 1 105 100 5 10 50
    (by norm_num) (by norm_num) (by norm_num) (by norm_num) (by norm_num) (by norm_num)

/-- C9: at `timeToExpiry ≤ 0` with spot equal to strike, `calculateDelta`
treats a call as out-of-the-money (returns 0, testing `spot > strike`) while
`calculateAssignmentProbability` treats it as in-the-money (returns 1 for both
components, testing `strike ≤ spot`). -/
theorem claim9_degenerate_branches_disagree (P : Primitives) (S T r σ : ℚ)
    (md : Option ℚ) (hT : T ≤ 0) :
    calculateDelta P S S T r σ .call = 0 ∧
    (calculateAssignmentProbability P S S T r σ md).original = 1 ∧
    (calculateAssignmentProbability P S S T r σ md).enhanced = 1 := by
  refine ⟨?_, ?_, ?_⟩ <;> simp [calculateDelta, calculateAssignmentProbability, hT]

/-- Witness for C9 at spot = strike = 100 on the expiry date. -/
theorem claim9_witness :
    calculateDelta testPrims 100 100 0 0.045 0.25 .call = 0 ∧
    (calculateAssignmentProbability testPrims 100 100 0 0.045 0.25 none).original = 1 ∧
    (calculateAssignmentProbability testPrims 100 100 0 0.045 0.25 none).enhanced = 1 :=
  claim9_degenerate_branches_disagree testPrims 100 0 0.045 0.25 none (by norm_num)

/-- C10: when the goal score is not strictly positive (in particular the `-1`
sentinel), the published `goalScore` field is the enhanced return/assignment
ratio, or `N/A` when premium or enhanced probability is not positive; a
negative value such as the sentinel is never published as a score. -/
theorem claim10_sentinel_not_published (P : Primitives) (cp T D : ℚ) (o : RawOption) :
    (contractGoalScore P cp T D o ≤ 0 →
      (mapOption P cp T D o).goalScore =
        (if 0 < contractPremium o ∧ 0 < (contractProbs P cp T o).enhanced then
          ScoreField.ratioVal (roundFix 3
            ((contractPremium o / cp * 100) / ((contractProbs P cp T o).enhanced * 100)))
        else ScoreField.na)) ∧
    (∀ v : ℚ, v < 0 → (mapOption P cp T D o).goalScore ≠ ScoreField.score v) := by
  constructor
  · intro h
    simp only [mapOption]
    rw [if_neg (not_lt.mpr h)]
  · intro v hv
    simp only [mapOption]
    split_ifs with hgs hratio
    · intro hEq
      have hval : roundFix 3 (contractGoalScore P cp T D o) = v :=
        (ScoreField.score.injEq _ _).mp hEq
      have hnn : (0 : ℚ) ≤ roundFix 3 (contractGoalScore P cp T D o) := by
        unfold roundFix
        have h1 : (0 : ℚ) ≤ contractGoalScore P cp T D o * 10 ^ 3 + 1 / 2 := by nlinarith
        have h2 : (0 : ℤ) ≤ ⌊contractGoalScore P cp T D o * 10 ^ 3 + 1 / 2⌋ :=
          Int.le_floor.mpr (by exact_mod_cast h1)
        have h3 : (0 : ℚ) ≤ (⌊contractGoalScore P cp T D o * 10 ^ 3 + 1 / 2⌋ : ℚ) := by
          exact_mod_cast h2
        positivity
      rw [hval] at hnn
      exact absurd hnn (not_le.mpr hv)
    · simp
    · simp

/-- Witness for C10: a contract with zero premium fails the gate
(score `-1`) and publishes `N/A`/ratio, never a negative score. -/
theorem claim10_witness :
    ((mapOption testPrims 100 (1 / 52) 7
        ⟨"X", 101, 0, 0, 0, 0, 0, 10, 10, 0.3, false⟩).goalScore =
      (if 0 < contractPremium ⟨"X", 101, 0, 0, 0, 0, 0, 10, 10, 0.3, false⟩ ∧
          0 < (contractProbs testPrims 100 (1 / 52)
            ⟨"X", 101, 0, 0, 0, 0, 0, 10, 10, 0.3, false⟩).enhanced then
        ScoreField.ratioVal (roundFix 3
          ((contractPremium ⟨"X", 101, 0, 0, 0, 0, 0, 10, 10, 0.3, false⟩ / 100 * 100) /
            ((contractProbs testPrims 100 (1 / 52)
              ⟨"X", 101, 0, 0, 0, 0, 0, 10, 10, 0.3, false⟩).enhanced * 100)))
      else ScoreField.na)) ∧
    (mapOption testPrims 100 (1 / 52) 7
        ⟨"X", 101, 0, 0, 0, 0, 0, 10, 10, 0.3, false⟩).goalScore ≠
      ScoreField.score (-1) := by
  constructor
  · exact (claim10_sentinel_not_published testPrims 100 (1 / 52) 7
      ⟨"X", 101, 0, 0, 0, 0, 0, 10, 10, 0.3, false⟩).1
      (by norm_num [contractGoalScore, calculateGoalBasedScore,
        calculateGoalBasedScoreWith, contractPremium])
  · exact (claim10_sentinel_not_published testPrims 100 (1 / 52) 7
      ⟨"X", 101, 0, 0, 0, 0, 0, 10, 10, 0.3, false⟩).2 (-1) (by norm_num)

/-- `mapOption` copies the provider strike through unchanged. -/
theorem mapOption_strike (P : Primitives) (cp T D : ℚ) (o : RawOption) :
    (mapOption P cp T D o).strike = o.strike := rfl

/-- The `meetsTarget` field published by `mapOption`, in closed form. -/
theorem mapOption_meetsTarget (P : Primitives) (cp T D : ℚ) (o : RawOption) :
    (mapOption P cp T D o).meetsTarget =
      (decide (D ≤ 8 ∧ 0.1 ≤
          (if 0 < contractPremium o then contractPremium o / cp * 100 else 0)) ||
        decide (D ≤ 16 ∧ 0.2 ≤
          (if 0 < contractPremium o then contractPremium o / cp * 100 else 0))) := rfl

/-- C4: the selector's output list is sorted ascending by strike, and a
published best option is a qualifying member of the output whose published
`goalScore` is maximal among all qualifying members. -/
theorem claim4_selector_sorted_and_best (P : Primitives) (cp : ℚ) (ts : ℤ)
    (T D : ℚ) (calls : List RawOption) :
    (processExpiration P cp ts T D calls).calls.Pairwise
      (fun a b => a.strike ≤ b.strike) ∧
    (∀ b, (processExpiration P cp ts T D calls).bestOption = some b →
      b ∈ (processExpiration P cp ts T D calls).calls ∧ b.meetsTarget = true ∧
      ∀ c ∈ (processExpiration P cp ts T D calls).calls, c.meetsTarget = true →
        scoreFieldKey c.goalScore ≤ scoreFieldKey b.goalScore) := by
  simp only [processExpiration]
  generalize (calls.filter fun c =>
    decide (cp * 1.001 ≤ c.strike) && decide (c.strike ≤ cp * 1.10)).map
      (mapOption P cp T D) = A
  have htrans : ∀ a b c : MappedOption,
      decide (a.strike ≤ b.strike) = true → decide (b.strike ≤ c.strike) = true →
      decide (a.strike ≤ c.strike) = true := by
    intro a b c hab hbc
    simp only [decide_eq_true_eq] at *
    exact le_trans hab hbc
  have htotal : ∀ a b : MappedOption,
      (decide (a.strike ≤ b.strike) || decide (b.strike ≤ a.strike)) = true := by
    intro a b
    simp only [Bool.or_eq_true, decide_eq_true_eq]
    exact le_total _ _
  have hqtrans : ∀ a b c : MappedOption,
      decide (scoreFieldKey b.goalScore ≤ scoreFieldKey a.goalScore) = true →
      decide (scoreFieldKey c.goalScore ≤ scoreFieldKey b.goalScore) = true →
      decide (scoreFieldKey c.goalScore ≤ scoreFieldKey a.goalScore) = true := by
    intro a b c hab hbc
    simp only [decide_eq_true_eq] at *
    exact le_trans hbc hab
  have hqtotal : ∀ a b : MappedOption,
      (decide (scoreFieldKey b.goalScore ≤ scoreFieldKey a.goalScore) ||
        decide (scoreFieldKey a.goalScore ≤ scoreFieldKey b.goalScore)) = true := by
    intro a b
    simp only [Bool.or_eq_true, decide_eq_true_eq]
    exact le_total _ _
  constructor
  · exact (List.sorted_mergeSort htrans htotal A).imp fun h => of_decide_eq_true h
  · intro b hb
    have hperm := List.mergeSort_perm (A.filter fun c => c.meetsTarget)
      (fun a b => decide (scoreFieldKey b.goalScore ≤ scoreFieldKey a.goalScore))
    have hsorted := List.sorted_mergeSort hqtrans hqtotal (A.filter fun c => c.meetsTarget)
    rcases hq : (A.filter fun c => c.meetsTarget).mergeSort
        (fun a b => decide (scoreFieldKey b.goalScore ≤ scoreFieldKey a.goalScore)) with
      _ | ⟨x, xs⟩
    · rw [hq] at hb
      simp at hb
    · rw [hq] at hb
      simp only [List.head?_cons, Option.some.injEq] at hb
      subst hb
      rw [hq] at hperm hsorted
      have hxmem : x ∈ A.filter fun c => c.meetsTarget :=
        hperm.mem_iff.mp (List.mem_cons_self x xs)
      have hxA : x ∈ A ∧ x.meetsTarget = true := by
        simpa using List.mem_filter.mp hxmem
      refine ⟨List.mem_mergeSort.mpr hxA.1, hxA.2, ?_⟩
      intro c hc hcmt
      have hcA : c ∈ A := List.mem_mergeSort.mp hc
      have hcf : c ∈ A.filter fun c => c.meetsTarget :=
        List.mem_filter.mpr ⟨hcA, by simpa using hcmt⟩
      have hcx : c ∈ x :: xs := hperm.mem_iff.mpr hcf
      rcases List.mem_cons.mp hcx with h | h
      · rw [h]
      · exact of_decide_eq_true (List.rel_of_pairwise_cons hsorted h)

/-- A sample raw contract for witnesses: strike 1002 (inside the band for a
1000 spot), bid = ask = 1, implied volatility 0.3. -/
def sampleRaw : RawOption :=
  ⟨"CALL1", 1002, 1, 1, 1, 0, 0, 10, 10, 0.3, false⟩

/-- A sample target expiration seven days out with `sampleRaw` as its chain. -/
def sampleTarget : TargetData :=
  ⟨1700000000, 1 / 52, 7, some [sampleRaw]⟩

/-- Witness for C4 on a one-contract chain at spot 1000: the published best
option is the mapped sample contract, which qualifies and is maximal. -/
theorem claim4_witness :
    mapOption testPrims 1000 (1 / 52) 7 sampleRaw ∈
      (processExpiration testPrims 1000 1700000000 (1 / 52) 7 [sampleRaw]).calls ∧
    (mapOption testPrims 1000 (1 / 52) 7 sampleRaw).meetsTarget = true ∧
    ∀ c ∈ (processExpiration testPrims 1000 1700000000 (1 / 52) 7 [sampleRaw]).calls,
      c.meetsTarget = true →
      scoreFieldKey c.goalScore ≤
        scoreFieldKey (mapOption testPrims 1000 (1 / 52) 7 sampleRaw).goalScore :=
  (claim4_selector_sorted_and_best testPrims 1000 1700000000 (1 / 52) 7 [sampleRaw]).2
    (mapOption testPrims 1000 (1 / 52) 7 sampleRaw)
    (by norm_num [processExpiration, List.filter_cons, mapOption_meetsTarget,
      contractPremium, sampleRaw])

/-- C5: every contract in any expiration result of an analysis run has its
strike inside the out-of-the-money admission band `[spot·1.001, spot·1.10]`. -/
theorem claim5_otm_band (P : Primitives) (cp : ℚ) (targets : List TargetData)
    (res : ExpirationResult) (hres : res ∈ runAnalysis P cp targets)
    (m : MappedOption) (hm : m ∈ res.calls) :
    cp * 1.001 ≤ m.strike ∧ m.strike ≤ cp * 1.10 := by
  simp only [runAnalysis, List.mem_filterMap] at hres
  obtain ⟨t, ht, hmap⟩ := hres
  rcases hc : t.chain with _ | calls
  · rw [hc] at hmap
    simp at hmap
  · rw [hc] at hmap
    simp only [Option.map_some'] at hmap
    obtain rfl := Option.some.inj hmap
    simp only [processExpiration, List.mem_mergeSort, List.mem_map,
      List.mem_filter] at hm
    obtain ⟨o, ⟨ho, hband⟩, rfl⟩ := hm
    simp only [Bool.and_eq_true, decide_eq_true_eq] at hband
    rw [mapOption_strike]
    exact hband

/-- Witness for C5: the sample contract at strike 1002 returned for a 1000
spot satisfies `1000·1.001 ≤ 1002 ≤ 1000·1.10`. -/
theorem claim5_witness :
    1000 * 1.001 ≤ (mapOption testPrims 1000 (1 / 52) 7 sampleRaw).strike ∧
    (mapOption testPrims 1000 (1 / 52) 7 sampleRaw).strike ≤ 1000 * 1.10 :=
  claim5_otm_band testPrims 1000 [sampleTarget]
    (processExpiration testPrims 1000 1700000000 (1 / 52) 7 [sampleRaw])
    (by simp [runAnalysis, sampleTarget])
    (mapOption testPrims 1000 (1 / 52) 7 sampleRaw)
    (by norm_num [processExpiration, List.filter_cons, sampleRaw])

/-- Counterexample for C8: a single target expiration whose chain has no
options entry produces an analysis with zero expiration results, not the one
empty result per target date that the claim asserts. -/
theorem claim8_counterexample :
    ¬ (runAnalysis testPrims 100 [⟨1700000000, 1, 1, none⟩]).length = 1 := by
  have h : runAnalysis testPrims 100 [⟨1700000000, 1, 1, none⟩] = [] := rfl
  rw [h]
  simp

/-- C8 as amended: a target whose chain has no options entry is skipped — no
result is emitted for it — while the remaining targets are still processed;
a target whose options entry exists but lists no contracts yields an empty
result (no calls, no best option, nothing qualifying) in place. -/
theorem claim8_amended_partial_tolerance (P : Primitives) (cp : ℚ)
    (pre post : List TargetData) (ts : ℤ) (T D : ℚ) :
    runAnalysis P cp (pre ++ ⟨ts, T, D, none⟩ :: post) =
      runAnalysis P cp pre ++ runAnalysis P cp post ∧
    runAnalysis P cp (pre ++ ⟨ts, T, D, some []⟩ :: post) =
      runAnalysis P cp pre ++ processExpiration P cp ts T D [] :: runAnalysis P cp post ∧
    (processExpiration P cp ts T D []).calls = [] ∧
    (processExpiration P cp ts T D []).bestOption = none ∧
    (processExpiration P cp ts T D []).hasQualifyingOptions = false := by
  refine ⟨?_, ?_, ?_, ?_, ?_⟩
  · simp [runAnalysis, List.filterMap_append]
  · simp [runAnalysis, List.filterMap_append]
  · simp [processExpiration]
  · simp [processExpiration]
  · simp [processExpiration]

end OptionsAnalyzer
